import Mathlib

/-!
Verification development for the news-curation pipeline
(`fetch_articles.py`, `select_articles.py`, `post_to_slack.py`).

The pipeline's pure core is shallowly embedded below: articles are a
six-field record, timestamps are modelled as integer microseconds since
the Unix epoch, network fetches are passed in as explicit
`String → Except String _` parameters (an `Except.error` models a raised
`requests`/`feedparser` exception caught by the adapter's `try`/`except`),
and the current clock is an explicit parameter.
-/

set_option autoImplicit false

namespace NewsCuration

/-- Article record produced by every adapter in `fetch_articles.py`:
the dict with keys `source`, `section`, `title`, `abstract`, `url`,
`published_date`, all strings. -/
structure Article where
  source : String
  «section» : String
  title : String
  abstract : String
  url : String
  published_date : String
  deriving DecidableEq

/-! ### Python `datetime` model

A `datetime` value is modelled by its naive wall-clock reading in
microseconds since the epoch plus its optional `tzinfo` as a fixed UTC
offset in seconds (`none` for a timezone-naive value).  Comparison of two
aware datetimes in Python compares naive reading minus offset. -/

/-- Python `datetime` modelled as naive microseconds since the epoch and an
optional fixed utcoffset in seconds (`none` = timezone-naive). -/
structure PyDatetime where
  naiveMicros : Int
  tzOffsetSecs : Option Int
  deriving DecidableEq

/-- UTC reading of a `datetime` in microseconds; a missing offset counts
as zero (used only after the code has replaced a naive tzinfo by UTC). -/
def py_utc_micros (dt : PyDatetime) : Int :=
  dt.naiveMicros - (dt.tzOffsetSecs.getD 0) * 1000000

/-- Gregorian leap-year test, as in Python's `calendar.isleap`. -/
def isLeapYear (y : Nat) : Bool :=
  y % 4 == 0 && (y % 100 != 0 || y % 400 == 0)

/-- Number of days in a month of a given year. -/
def daysInMonth (y m : Nat) : Nat :=
  if m = 2 then (if isLeapYear y then 29 else 28)
  else if m = 4 ∨ m = 6 ∨ m = 9 ∨ m = 11 then 30
  else 31

/-- Days from 1970-01-01 to year/month/day (proleptic Gregorian), the
standard civil-from-days algorithm; all divisions act on non-negative
operands after the era shift, so `Int` truncated division is exact. -/
def days_from_civil (y m d : Int) : Int :=
  let y2 : Int := if m ≤ 2 then y - 1 else y
  let era : Int := (if 0 ≤ y2 then y2 else y2 - 399) / 400
  let yoe : Int := y2 - era * 400
  let doy : Int := (153 * (if 2 < m then m - 3 else m + 9) + 2) / 5 + d - 1
  let doe : Int := yoe * 365 + yoe / 4 - yoe / 100 + doy
  era * 146097 + doe - 719468

/-- Reads exactly two ASCII digits from the front of a char list. -/
def digit2 : List Char → Option (Nat × List Char)
  | a :: b :: rest =>
      if a.isDigit && b.isDigit then
        some ((a.toNat - 48) * 10 + (b.toNat - 48), rest)
      else none
  | _ => none

/-- Reads exactly four ASCII digits from the front of a char list. -/
def digit4 : List Char → Option (Nat × List Char)
  | a :: b :: c :: d :: rest =>
      if a.isDigit && b.isDigit && c.isDigit && d.isDigit then
        some (1000 * (a.toNat - 48) + 100 * (b.toNat - 48) +
          10 * (c.toNat - 48) + (d.toNat - 48), rest)
      else none
  | _ => none

/-- Consumes one expected character. -/
def expectChar (c : Char) : List Char → Option (List Char)
  | x :: rest => if x = c then some rest else none
  | [] => none

/-- Numeric value of a digit string. -/
def natOfDigits (cs : List Char) : Nat :=
  cs.foldl (fun acc c => acc * 10 + (c.toNat - 48)) 0

/-- Parses the `YYYY-MM-DD` head of an ISO string, validating the calendar
ranges exactly as the `datetime` constructor does (year ≥ 1, month 1..12,
day 1..days-in-month). -/
def parse_iso_date (cs : List Char) : Option (Nat × Nat × Nat × List Char) :=
  match digit4 cs with
  | none => none
  | some (y, r1) =>
    match expectChar '-' r1 with
    | none => none
    | some r2 =>
      match digit2 r2 with
      | none => none
      | some (m, r3) =>
        match expectChar '-' r3 with
        | none => none
        | some r4 =>
          match digit2 r4 with
          | none => none
          | some (d, r5) =>
            if 1 ≤ y ∧ 1 ≤ m ∧ m ≤ 12 ∧ 1 ≤ d ∧ d ≤ daysInMonth y m then
              some (y, m, d, r5)
            else none

/-- Splits the time portion at the first `+`/`-` sign, which starts the
utcoffset field (CPython locates the sign with `str.find`). -/
def splitAtSign : List Char → List Char × Option (Char × List Char)
  | [] => ([], none)
  | c :: rest =>
      if c = '+' ∨ c = '-' then ([], some (c, rest))
      else
        let p := splitAtSign rest
        (c :: p.1, p.2)

/-- Parses `HH[:MM[:SS[.fff|.ffffff]]]`, the time grammar of
`datetime.fromisoformat` (CPython ≤ 3.10: the fraction has exactly three
or six digits); must consume the whole list.  Returns hour, minute,
second, microsecond. -/
def parse_time_part (cs : List Char) : Option (Nat × Nat × Nat × Nat) :=
  match digit2 cs with
  | none => none
  | some (h, r1) =>
    match r1 with
    | [] => some (h, 0, 0, 0)
    | ':' :: r2 =>
      match digit2 r2 with
      | none => none
      | some (mi, r3) =>
        match r3 with
        | [] => some (h, mi, 0, 0)
        | ':' :: r4 =>
          match digit2 r4 with
          | none => none
          | some (s, r5) =>
            match r5 with
            | [] => some (h, mi, s, 0)
            | '.' :: fr =>
                if fr.length = 3 ∧ fr.all Char.isDigit then
                  some (h, mi, s, natOfDigits fr * 1000)
                else if fr.length = 6 ∧ fr.all Char.isDigit then
                  some (h, mi, s, natOfDigits fr)
                else none
            | _ => none
        | _ => none
    | _ => none

/-- Parses a utcoffset body `HH:MM[:SS]` into seconds, validating the
ranges `timezone` accepts (minutes/seconds below 60, total below 24 h). -/
def parse_tz (cs : List Char) : Option Int :=
  match digit2 cs with
  | none => none
  | some (h, r1) =>
    match r1 with
    | ':' :: r2 =>
      match digit2 r2 with
      | none => none
      | some (mi, r3) =>
        let fin : Nat → Option Int := fun s =>
          if mi ≤ 59 ∧ s ≤ 59 ∧ h * 3600 + mi * 60 + s < 86400 then
            some ((h * 3600 + mi * 60 + s : Nat) : Int)
          else none
        match r3 with
        | [] => fin 0
        | ':' :: r4 =>
          match digit2 r4 with
          | none => none
          | some (s, r5) => match r5 with | [] => fin s | _ => none
        | _ => none
    | _ => none

/-- Model of Python `datetime.fromisoformat` (CPython ≤ 3.10 grammar, the
interpreter family the script's `.replace("Z", "+00:00")` targets):
`YYYY-MM-DD` optionally followed by one arbitrary separator character and
`HH[:MM[:SS[.fff|.ffffff]]][±HH:MM[:SS]]`.  Any failure — including the
range errors the `datetime`/`timezone` constructors would raise — yields
`none`. -/
def fromisoformat (str : String) : Option PyDatetime :=
  match parse_iso_date str.data with
  | none => none
  | some (y, m, d, rest) =>
    let dateMicros : Int := days_from_civil (y : Int) (m : Int) (d : Int) * 86400000000
    match rest with
    | [] => some ⟨dateMicros, none⟩
    | _sep :: timeChars =>
      let p := splitAtSign timeChars
      match parse_time_part p.1 with
      | none => none
      | some (h, mi, s, micro) =>
        if h ≤ 23 ∧ mi ≤ 59 ∧ s ≤ 59 then
          let naive : Int :=
            dateMicros + ((h * 3600 + mi * 60 + s : Nat) : Int) * 1000000 + (micro : Int)
          match p.2 with
          | none => some ⟨naive, none⟩
          | some (sign, tzChars) =>
            match parse_tz tzChars with
            | none => none
            | some offSecs =>
                some ⟨naive, some (if sign = '-' then -offSecs else offSecs)⟩
        else none

/-- Character-level model of `pub_date_str.replace("Z", "+00:00")`: every
occurrence of the one-character pattern `Z` expands to `+00:00`. -/
def replaceZ : List Char → List Char
  | [] => []
  | c :: rest =>
      if c = 'Z' then '+' :: '0' :: '0' :: ':' :: '0' :: '0' :: replaceZ rest
      else c :: replaceZ rest

/-- String form of `replaceZ`. -/
def replace_Z_utc (s : String) : String :=
  String.mk (replaceZ s.data)

/-! ### `fetch_articles.py` constants -/

/-- Default output path of `fetch_articles.py`. -/
def DEFAULT_OUTPUT_PATH : String := "/tmp/today_articles.json"

/-- Default recency window of the `--hours` argument. -/
def DEFAULT_HOURS : Int := 48

/-- Sections queried against the NYT Top Stories API. -/
def NYT_SECTIONS : List String := ["technology", "business", "world"]

/-- Bloomberg RSS feed URLs. -/
def BLOOMBERG_FEEDS : List String :=
  ["https://feeds.bloomberg.com/markets/news.rss",
   "https://feeds.bloomberg.com/technology/news.rss",
   "https://feeds.bloomberg.com/politics/news.rss"]

/-- The Guardian RSS feed URLs. -/
def GUARDIAN_FEEDS : List String :=
  ["https://www.theguardian.com/world/rss",
   "https://www.theguardian.com/business/rss",
   "https://www.theguardian.com/technology/rss"]

/-! ### Substring matching (Python `pat in url`) -/

/-- Does `pat` stand at the front of `cs`? -/
def charsStartsWith : List Char → List Char → Bool
  | _, [] => true
  | [], _ :: _ => false
  | c :: cs, p :: ps => c = p && charsStartsWith cs ps

/-- Does `pat` occur contiguously anywhere in the list? -/
def charsContains (pat : List Char) : List Char → Bool
  | [] => charsStartsWith [] pat
  | c :: rest => charsStartsWith (c :: rest) pat || charsContains pat rest

/-- Model of Python's substring test `pat in s`. -/
def strContainsSub (s pat : String) : Bool :=
  charsContains pat.data s.data

/-- Section-name extraction for Guardian feed URLs
(`_extract_guardian_section`). -/
def _extract_guardian_section (url : String) : String :=
  if strContainsSub url "world" then "world"
  else if strContainsSub url "business" then "business"
  else if strContainsSub url "technology" then "technology"
  else "general"

/-- Section-name extraction for Bloomberg feed URLs
(`_extract_section_from_url`). -/
def _extract_section_from_url (url : String) : String :=
  if strContainsSub url "markets" then "markets"
  else if strContainsSub url "technology" then "technology"
  else if strContainsSub url "politics" then "politics"
  else "general"

/-! ### Source adapters

A fetch of one upstream unit (one NYT section, one feed URL) is an
explicit argument of type `String → Except String _`; `Except.error e`
models a raised exception whose message is `e`, caught by the adapter's
`try`/`except`.  Each adapter returns the article list it builds together
with the list of messages it printed to stderr. -/

/-- One item of the `results` array of a NYT Top Stories response; every
key may be absent (`item.get(key, "")`). -/
structure NytItem where
  title : Option String
  abstract : Option String
  url : Option String
  published_date : Option String
  deriving DecidableEq

/-- Parsed JSON body of one NYT Top Stories response; the `results` key
may be absent (`data.get("results", [])`). -/
structure NytResponse where
  results : Option (List NytItem)
  deriving DecidableEq

/-- Article built from one NYT result item. -/
def nyt_item_article (sec : String) (item : NytItem) : Article :=
  { source := "NYT"
    «section» := sec
    title := item.title.getD ""
    abstract := item.abstract.getD ""
    url := item.url.getD ""
    published_date := item.published_date.getD "" }

/-- Model of `fetch_nyt_articles`: one GET per section inside a
`try`/`except`; a failed section logs an error and contributes nothing.
The two `except` clauses (request error, JSON decode error) are collapsed
into the single `Except.error` case. -/
def fetch_nyt_articles (fetch : String → Except String NytResponse) :
    List Article × List String :=
  NYT_SECTIONS.foldl
    (fun acc sec =>
      match fetch sec with
      | Except.ok data =>
          (acc.1 ++ (data.results.getD []).map (nyt_item_article sec), acc.2)
      | Except.error e =>
          (acc.1, acc.2 ++ ["[ERROR] NYT " ++ sec ++ " の取得に失敗: " ++ e]))
    ([], [])

/-- The first six fields of a `time.struct_time` as exposed by
`entry.published_parsed`. -/
structure TimeStruct where
  tm_year : Nat
  tm_mon : Nat
  tm_mday : Nat
  tm_hour : Nat
  tm_min : Nat
  tm_sec : Nat
  deriving DecidableEq

/-- Two-digit zero-padded decimal rendering. -/
def pad2 (n : Nat) : String :=
  if n < 10 then "0" ++ toString n else toString n

/-- Four-digit zero-padded decimal rendering. -/
def pad4 (n : Nat) : String :=
  if n < 10 then "000" ++ toString n
  else if n < 100 then "00" ++ toString n
  else if n < 1000 then "0" ++ toString n
  else toString n

/-- Rendering of `datetime(*entry.published_parsed[:6]).isoformat()`:
a naive datetime with zero microseconds prints as
`YYYY-MM-DDTHH:MM:SS`. -/
def struct_time_isoformat (t : TimeStruct) : String :=
  pad4 t.tm_year ++ "-" ++ pad2 t.tm_mon ++ "-" ++ pad2 t.tm_mday ++ "T" ++
    pad2 t.tm_hour ++ ":" ++ pad2 t.tm_min ++ ":" ++ pad2 t.tm_sec

/-- One feed entry as exposed by `feedparser`; each field may be absent,
and `published_parsed` is `none` when the attribute is missing or
`None`. -/
structure FeedEntry where
  title : Option String
  summary : Option String
  link : Option String
  published : Option String
  published_parsed : Option TimeStruct
  deriving DecidableEq

/-- A parsed feed: its list of entries. -/
structure Feed where
  entries : List FeedEntry
  deriving DecidableEq

/-- The `published_date` value stored for a feed entry: the ISO rendering
of `published_parsed` when present and truthy, else the raw `published`
string, else empty. -/
def entry_published_date (e : FeedEntry) : String :=
  match e.published_parsed with
  | some t => struct_time_isoformat t
  | none => e.published.getD ""

/-- Article built from one Bloomberg feed entry. -/
def bloomberg_entry_article (sec : String) (e : FeedEntry) : Article :=
  { source := "Bloomberg"
    «section» := sec
    title := e.title.getD ""
    abstract := e.summary.getD ""
    url := e.link.getD ""
    published_date := entry_published_date e }

/-- Model of `fetch_bloomberg_articles`: one `feedparser.parse` per feed
URL inside a `try`/`except`; a failed feed logs an error and contributes
nothing. -/
def fetch_bloomberg_articles (fetchFeed : String → Except String Feed) :
    List Article × List String :=
  BLOOMBERG_FEEDS.foldl
    (fun acc feed_url =>
      match fetchFeed feed_url with
      | Except.ok feed =>
          (acc.1 ++ feed.entries.map
            (bloomberg_entry_article (_extract_section_from_url feed_url)), acc.2)
      | Except.error e =>
          (acc.1, acc.2 ++ ["[ERROR] Bloomberg " ++ feed_url ++ " の取得に失敗: " ++ e]))
    ([], [])

/-- State machine equivalent to `re.sub(r'<[^>]+>', '', s)` over the char
list: a `<` opens a candidate tag buffered in the first argument; the
first following `>` closes it, and the whole `<...>` run is dropped when
at least one character stands between them (the `+` of the pattern);
`<>` and an unclosed `<...` tail are emitted verbatim, as the regex
leaves them unmatched. -/
def stripAux : Option (List Char) → List Char → List Char
  | none, [] => []
  | some buf, [] => buf
  | none, c :: rest =>
      if c = '<' then stripAux (some ['<']) rest
      else c :: stripAux none rest
  | some buf, c :: rest =>
      if c = '>' then
        if 2 ≤ buf.length then stripAux none rest
        else buf ++ '>' :: stripAux none rest
      else stripAux (some (buf ++ [c])) rest

/-- Model of `re.sub(r'<[^>]+>', '', s)` on strings. -/
def stripHtml (s : String) : String :=
  String.mk (stripAux none s.data)

/-- Article built from one Guardian feed entry: the summary has HTML tags
stripped and is then truncated to 500 characters
(`abstract[:500] if len(abstract) > 500 else abstract`) before
assignment. -/
def guardian_entry_article (sec : String) (e : FeedEntry) : Article :=
  let abstract0 := stripHtml (e.summary.getD "")
  let abstract :=
    if 500 < abstract0.data.length then String.mk (abstract0.data.take 500)
    else abstract0
  { source := "Guardian"
    «section» := sec
    title := e.title.getD ""
    abstract := abstract
    url := e.link.getD ""
    published_date := entry_published_date e }

/-- Model of `fetch_guardian_articles`: like the Bloomberg adapter but
with HTML stripping and truncation of the summary. -/
def fetch_guardian_articles (fetchFeed : String → Except String Feed) :
    List Article × List String :=
  GUARDIAN_FEEDS.foldl
    (fun acc feed_url =>
      match fetchFeed feed_url with
      | Except.ok feed =>
          (acc.1 ++ feed.entries.map
            (guardian_entry_article (_extract_guardian_section feed_url)), acc.2)
      | Except.error e =>
          (acc.1, acc.2 ++ ["[ERROR] Guardian " ++ feed_url ++ " の取得に失敗: " ++ e]))
    ([], [])

/-! ### TimeWindowFilter (`filter_recent_articles`) -/

/-- Loop body of `filter_recent_articles` with the cutoff instant
precomputed (in UTC microseconds): an empty `published_date` is kept; a
date that fails `fromisoformat` after the `Z` replacement is kept
(`except ValueError`); a parsed naive date gets `tzinfo=timezone.utc`;
the article is kept iff its instant is at least the cutoff. -/
def filter_recent_go (cutoff : Int) : List Article → List Article
  | [] => []
  | a :: rest =>
      if a.published_date = "" then a :: filter_recent_go cutoff rest
      else
        match fromisoformat (replace_Z_utc a.published_date) with
        | none => a :: filter_recent_go cutoff rest
        | some dt =>
            let dt2 := if dt.tzOffsetSecs = none then
                { dt with tzOffsetSecs := some 0 } else dt
            if cutoff ≤ py_utc_micros dt2 then a :: filter_recent_go cutoff rest
            else filter_recent_go cutoff rest

/-- Model of `filter_recent_articles(articles, hours)` with the current
UTC clock passed explicitly in microseconds:
`cutoff = datetime.now(timezone.utc) - timedelta(hours=hours)`. -/
def filter_recent_articles (nowUtcMicros : Int) (hours : Int)
    (articles : List Article) : List Article :=
  filter_recent_go (nowUtcMicros - hours * 3600000000) articles

/-! ### Deduplicator (`deduplicate_articles`) -/

/-- Loop of `deduplicate_articles` with the `seen_urls` set carried as a
list: an article is appended iff its `url` is truthy (non-empty) and not
yet seen, in which case its url joins the set. -/
def deduplicate_go (seen : List String) : List Article → List Article
  | [] => []
  | a :: rest =>
      if a.url ≠ "" ∧ a.url ∉ seen then
        a :: deduplicate_go (a.url :: seen) rest
      else deduplicate_go seen rest

/-- Model of `deduplicate_articles`. -/
def deduplicate_articles (articles : List Article) : List Article :=
  deduplicate_go [] articles

/-! ### Pipeline entry point (`main` of `fetch_articles.py`) -/

/-- The JSON document written by `fetch_articles.py`. -/
structure OutputData where
  fetched_at : String
  total_count : Nat
  articles : List Article
  deriving DecidableEq

/-- Model of `main` in `fetch_articles.py`: fetch from the three
adapters, concatenate, filter by recency, deduplicate, and build the
output document whose `total_count` is the length of the final list.
The two clock reads are the explicit parameters `nowUtcMicros` (used for
the cutoff) and `nowIso` (the `fetched_at` rendering). -/
def fetch_articles_main (nytFetch : String → Except String NytResponse)
    (bbFetch gFetch : String → Except String Feed)
    (nowUtcMicros : Int) (nowIso : String) (hours : Int) : OutputData :=
  let nyt := fetch_nyt_articles nytFetch
  let bb := fetch_bloomberg_articles bbFetch
  let g := fetch_guardian_articles gFetch
  let all_articles := nyt.1 ++ bb.1 ++ g.1
  let filtered := filter_recent_articles nowUtcMicros hours all_articles
  let unique := deduplicate_articles filtered
  { fetched_at := nowIso
    total_count := unique.length
    articles := unique }

/-! ### `post_to_slack.py` -/

/-- Webhook payload `{"text": message}`. -/
structure SlackPayload where
  text : String
  deriving DecidableEq

/-- Payload built by `post_to_slack` for a message. -/
def post_to_slack_payload (message : String) : SlackPayload :=
  { text := message }

/-- Message length cap applied in `main` of `post_to_slack.py`. -/
def MAX_LENGTH : Nat := 39000

/-- Truncation notice appended when the message exceeds the cap. -/
def TRUNC_NOTICE : String := "\n\n_(メッセージが長すぎるため省略されました)_"

/-- Model of the truncation step of `main` in `post_to_slack.py`:
`message[:MAX_LENGTH]` plus the notice when the message is longer than
`MAX_LENGTH`, else the message unchanged. -/
def slack_prepare_message (message : String) : String :=
  if message.data.length > MAX_LENGTH then
    String.mk (message.data.take MAX_LENGTH) ++ TRUNC_NOTICE
  else message

/-- The payload `main` finally posts for an input message. -/
def slack_posted_payload (message : String) : SlackPayload :=
  post_to_slack_payload (slack_prepare_message message)

/-- Message built by `post_error_to_slack`: the rotating-light header,
the raw error message inside a code fence, and no length cap. -/
def post_error_to_slack_message (error_message : String) : String :=
  ":rotating_light: *記事キュレーションでエラーが発生しました*\n\n```\n" ++
    error_message ++ "\n```"

/-- Dispatch of `main` in `post_to_slack.py`: a truthy `--error` argument
(present and non-empty) posts the error notification via
`post_error_to_slack`, skipping the truncation block entirely; otherwise
the normal path applies the cap and posts the prepared message. -/
def slack_main_payload (errorArg : Option String) (message : String) : SlackPayload :=
  if errorArg.getD "" ≠ "" then
    post_to_slack_payload (post_error_to_slack_message (errorArg.getD ""))
  else
    post_to_slack_payload (slack_prepare_message message)

/-- A 40000-character error message, longer than the cap. -/
def big_error_message : String :=
  String.mk (List.replicate 40000 'a')

/-! ### Specification-side reference definitions -/

/-- Keep-predicate stated by the spec for the time-window filter: an
article is kept iff its `published_date` is empty, or fails to parse
after the `Z` normalization, or parses to an instant (a timezone-naive
one read as UTC) at least the cutoff. -/
def keeps_article_spec (cutoff : Int) (a : Article) : Bool :=
  if a.published_date = "" then true
  else
    match fromisoformat (replace_Z_utc a.published_date) with
    | none => true
    | some dt => decide (cutoff ≤ dt.naiveMicros - (dt.tzOffsetSecs.getD 0) * 1000000)

/-- Reference deduplicator following the spec's words: walking the list
with the already-walked items at hand, an article is kept iff its url is
non-empty and no earlier article carries the same url; first occurrence
wins. -/
def dedupe_firstwins_go (prev : List Article) : List Article → List Article
  | [] => []
  | a :: rest =>
      if a.url ≠ "" ∧ ∀ b ∈ prev, b.url ≠ a.url then
        a :: dedupe_firstwins_go (prev ++ [a]) rest
      else dedupe_firstwins_go (prev ++ [a]) rest

/-- Reference deduplicator on a whole list. -/
def dedupe_firstwins (l : List Article) : List Article :=
  dedupe_firstwins_go [] l

/-- Contribution of one NYT section in isolation: the mapped results on
success, nothing plus one error line on failure. -/
def nyt_unit (fetch : String → Except String NytResponse) (sec : String) :
    List Article × List String :=
  match fetch sec with
  | Except.ok data => ((data.results.getD []).map (nyt_item_article sec), [])
  | Except.error e => ([], ["[ERROR] NYT " ++ sec ++ " の取得に失敗: " ++ e])

/-- Contribution of one Bloomberg feed URL in isolation. -/
def bloomberg_unit (fetchFeed : String → Except String Feed) (feed_url : String) :
    List Article × List String :=
  match fetchFeed feed_url with
  | Except.ok feed =>
      (feed.entries.map (bloomberg_entry_article (_extract_section_from_url feed_url)), [])
  | Except.error e => ([], ["[ERROR] Bloomberg " ++ feed_url ++ " の取得に失敗: " ++ e])

/-- Contribution of one Guardian feed URL in isolation. -/
def guardian_unit (fetchFeed : String → Except String Feed) (feed_url : String) :
    List Article × List String :=
  match fetchFeed feed_url with
  | Except.ok feed =>
      (feed.entries.map (guardian_entry_article (_extract_guardian_section feed_url)), [])
  | Except.error e => ([], ["[ERROR] Guardian " ++ feed_url ++ " の取得に失敗: " ++ e])

/-! ### Concrete sample data -/

/-- Sample article 1 (distinct non-empty url). -/
def d_art1 : Article :=
  ⟨"NYT", "technology", "t1", "a1", "https://example.com/1", ""⟩

/-- Sample article 2 (first occurrence of the shared url). -/
def d_art2 : Article :=
  ⟨"Bloomberg", "markets", "t2", "a2", "https://example.com/2", ""⟩

/-- Sample article 3 (distinct non-empty url). -/
def d_art3 : Article :=
  ⟨"Guardian", "world", "t3", "a3", "https://example.com/3", ""⟩

/-- Sample article 4: shares article 2's url while every other field
differs. -/
def d_art4 : Article :=
  ⟨"NYT", "business", "t4", "a4", "https://example.com/2", "2024-06-01"⟩

/-- Sample article 5 (distinct non-empty url). -/
def d_art5 : Article :=
  ⟨"Guardian", "business", "t5", "a5", "https://example.com/5", ""⟩

/-- Sample article with an empty url. -/
def empty_url_article : Article :=
  ⟨"NYT", "world", "no url", "abs", "", "2024-06-01"⟩

/-! ### Helper lemmas: adapters -/

/-- A left fold whose step appends a per-element contribution to both
components equals the concatenation of the per-element contributions. -/
lemma foldl_adapter_units {α : Type}
    (step : List Article × List String → α → List Article × List String)
    (unit : α → List Article × List String)
    (hstep : ∀ acc x, step acc x = (acc.1 ++ (unit x).1, acc.2 ++ (unit x).2)) :
    ∀ (l : List α) (init : List Article × List String),
      l.foldl step init =
        (init.1 ++ (l.map (fun x => (unit x).1)).flatten,
         init.2 ++ (l.map (fun x => (unit x).2)).flatten) := by
  intro l
  induction l with
  | nil => intro init; simp
  | cons x xs ih =>
    intro init
    rw [List.foldl_cons, hstep, ih]
    simp [List.append_assoc]

/-- The NYT adapter is the concatenation of its independent per-section
contributions. -/
lemma fetch_nyt_decomp (fetch : String → Except String NytResponse) :
    fetch_nyt_articles fetch =
      ((NYT_SECTIONS.map (fun s => (nyt_unit fetch s).1)).flatten,
       (NYT_SECTIONS.map (fun s => (nyt_unit fetch s).2)).flatten) := by
  have hstep : ∀ (acc : List Article × List String) (sec : String),
      (match fetch sec with
       | Except.ok data =>
           (acc.1 ++ (data.results.getD []).map (nyt_item_article sec), acc.2)
       | Except.error e =>
           (acc.1, acc.2 ++ ["[ERROR] NYT " ++ sec ++ " の取得に失敗: " ++ e]))
        = (acc.1 ++ (nyt_unit fetch sec).1, acc.2 ++ (nyt_unit fetch sec).2) := by
    intro acc sec
    cases h2 : fetch sec <;> simp [nyt_unit, h2]
  have h := foldl_adapter_units _ (nyt_unit fetch) hstep NYT_SECTIONS ([], [])
  simpa [fetch_nyt_articles] using h

/-- The Bloomberg adapter is the concatenation of its independent
per-feed contributions. -/
lemma fetch_bloomberg_decomp (fetchFeed : String → Except String Feed) :
    fetch_bloomberg_articles fetchFeed =
      ((BLOOMBERG_FEEDS.map (fun u => (bloomberg_unit fetchFeed u).1)).flatten,
       (BLOOMBERG_FEEDS.map (fun u => (bloomberg_unit fetchFeed u).2)).flatten) := by
  have hstep : ∀ (acc : List Article × List String) (feed_url : String),
      (match fetchFeed feed_url with
       | Except.ok feed =>
           (acc.1 ++ feed.entries.map
             (bloomberg_entry_article (_extract_section_from_url feed_url)), acc.2)
       | Except.error e =>
           (acc.1, acc.2 ++ ["[ERROR] Bloomberg " ++ feed_url ++ " の取得に失敗: " ++ e]))
        = (acc.1 ++ (bloomberg_unit fetchFeed feed_url).1,
           acc.2 ++ (bloomberg_unit fetchFeed feed_url).2) := by
    intro acc feed_url
    cases h2 : fetchFeed feed_url <;> simp [bloomberg_unit, h2]
  have h := foldl_adapter_units _ (bloomberg_unit fetchFeed) hstep BLOOMBERG_FEEDS ([], [])
  simpa [fetch_bloomberg_articles] using h

/-- The Guardian adapter is the concatenation of its independent
per-feed contributions. -/
lemma fetch_guardian_decomp (fetchFeed : String → Except String Feed) :
    fetch_guardian_articles fetchFeed =
      ((GUARDIAN_FEEDS.map (fun u => (guardian_unit fetchFeed u).1)).flatten,
       (GUARDIAN_FEEDS.map (fun u => (guardian_unit fetchFeed u).2)).flatten) := by
  have hstep : ∀ (acc : List Article × List String) (feed_url : String),
      (match fetchFeed feed_url with
       | Except.ok feed =>
           (acc.1 ++ feed.entries.map
             (guardian_entry_article (_extract_guardian_section feed_url)), acc.2)
       | Except.error e =>
           (acc.1, acc.2 ++ ["[ERROR] Guardian " ++ feed_url ++ " の取得に失敗: " ++ e]))
        = (acc.1 ++ (guardian_unit fetchFeed feed_url).1,
           acc.2 ++ (guardian_unit fetchFeed feed_url).2) := by
    intro acc feed_url
    cases h2 : fetchFeed feed_url <;> simp [guardian_unit, h2]
  have h := foldl_adapter_units _ (guardian_unit fetchFeed) hstep GUARDIAN_FEEDS ([], [])
  simpa [fetch_guardian_articles] using h

/-! ### Helper lemmas: time-window filter -/

/-- The filter loop computes exactly the spec's keep-predicate filter. -/
lemma filter_recent_go_eq_filter (cutoff : Int) (l : List Article) :
    filter_recent_go cutoff l = l.filter (keeps_article_spec cutoff) := by
  induction l with
  | nil => rfl
  | cons a rest ih =>
    by_cases hd : a.published_date = ""
    · simp [filter_recent_go, List.filter, keeps_article_spec, hd, ih]
    · cases hp : fromisoformat (replace_Z_utc a.published_date) with
      | none => simp [filter_recent_go, List.filter, keeps_article_spec, hd, hp, ih]
      | some dt =>
        have hutc : py_utc_micros
            (if dt.tzOffsetSecs = none then { dt with tzOffsetSecs := some 0 } else dt)
            = dt.naiveMicros - (dt.tzOffsetSecs.getD 0) * 1000000 := by
          cases h : dt.tzOffsetSecs <;> simp [py_utc_micros, h]
        by_cases hc : cutoff ≤ dt.naiveMicros - (dt.tzOffsetSecs.getD 0) * 1000000
        · simp [filter_recent_go, List.filter, keeps_article_spec, hd, hp, hutc, hc, ih]
        · simp [filter_recent_go, List.filter, keeps_article_spec, hd, hp, hutc, hc, ih]

/-- The filter loop returns a sublist (subsequence) of its input. -/
lemma filter_recent_go_sublist (cutoff : Int) (l : List Article) :
    List.Sublist (filter_recent_go cutoff l) l := by
  rw [filter_recent_go_eq_filter]
  exact List.filter_sublist l

/-! ### Helper lemmas: deduplicator -/

/-- The dedup loop returns a sublist (subsequence) of its input. -/
lemma deduplicate_go_sublist (seen : List String) (l : List Article) :
    List.Sublist (deduplicate_go seen l) l := by
  induction l generalizing seen with
  | nil => simp [deduplicate_go]
  | cons a rest ih =>
    by_cases hc : a.url ≠ "" ∧ a.url ∉ seen
    · simpa [deduplicate_go, hc] using List.Sublist.cons₂ a (ih (a.url :: seen))
    · simpa [deduplicate_go, hc] using List.Sublist.cons a (ih seen)

/-- Every article the dedup loop keeps has a non-empty url not in the
incoming seen-set. -/
lemma mem_deduplicate_go {seen : List String} {l : List Article} {a : Article}
    (h : a ∈ deduplicate_go seen l) : a.url ≠ "" ∧ a.url ∉ seen := by
  induction l generalizing seen with
  | nil => simp [deduplicate_go] at h
  | cons b rest ih =>
    by_cases hc : b.url ≠ "" ∧ b.url ∉ seen
    · rw [deduplicate_go, if_pos hc] at h
      rcases List.mem_cons.1 h with rfl | h2
      · exact hc
      · have := ih h2
        exact ⟨this.1, fun hm => this.2 (List.mem_cons_of_mem _ hm)⟩
    · rw [deduplicate_go, if_neg hc] at h
      exact ih h

/-- The urls of the dedup loop's output are pairwise distinct. -/
lemma deduplicate_go_nodup_urls (seen : List String) (l : List Article) :
    ((deduplicate_go seen l).map (fun a => a.url)).Nodup := by
  induction l generalizing seen with
  | nil => simp [deduplicate_go]
  | cons a rest ih =>
    by_cases hc : a.url ≠ "" ∧ a.url ∉ seen
    · rw [deduplicate_go, if_pos hc]
      refine List.nodup_cons.2 ⟨?_, ih (a.url :: seen)⟩
      intro hmem
      rcases List.mem_map.1 hmem with ⟨b, hb, hb2⟩
      have := mem_deduplicate_go hb
      exact this.2 (by simp [hb2])
    · rw [deduplicate_go, if_neg hc]
      exact ih seen

/-- A list whose articles all have non-empty urls outside the seen-set
and whose urls are pairwise distinct passes the dedup loop unchanged. -/
lemma deduplicate_go_fixed (seen : List String) (l : List Article)
    (h1 : ∀ a ∈ l, a.url ≠ "" ∧ a.url ∉ seen)
    (h2 : (l.map (fun a => a.url)).Nodup) :
    deduplicate_go seen l = l := by
  induction l generalizing seen with
  | nil => rfl
  | cons a rest ih =>
    have ha := h1 a (List.mem_cons_self a rest)
    rw [deduplicate_go, if_pos ha]
    congr 1
    apply ih
    · intro b hb
      refine ⟨(h1 b (List.mem_cons_of_mem _ hb)).1, ?_⟩
      intro hmem
      rcases List.mem_cons.1 hmem with heq | hmem2
      · have hnd : a.url ∉ rest.map (fun x => x.url) := by
          rw [List.map_cons, List.nodup_cons] at h2
          exact h2.1
        exact hnd (List.mem_map.2 ⟨b, hb, heq⟩)
      · exact (h1 b (List.mem_cons_of_mem _ hb)).2 hmem2
    · rw [List.map_cons, List.nodup_cons] at h2
      exact h2.2

/-- Bridge between the code's seen-set loop and the spec's reference
walk: under the invariant that the seen-set holds exactly the non-empty
urls of the already-walked items, the two loops agree. -/
lemma deduplicate_go_eq_firstwins (l : List Article) :
    ∀ (seen : List String) (prev : List Article),
      (∀ u : String, u ≠ "" → (u ∈ seen ↔ ∃ b ∈ prev, b.url = u)) →
      deduplicate_go seen l = dedupe_firstwins_go prev l := by
  induction l with
  | nil => intro seen prev _; rfl
  | cons a rest ih =>
    intro seen prev hinv
    by_cases hu : a.url = ""
    · rw [deduplicate_go, dedupe_firstwins_go, if_neg (by simp [hu]),
        if_neg (by simp [hu])]
      apply ih
      intro u hu2
      rw [hinv u hu2]
      constructor
      · rintro ⟨b, hb, he⟩; exact ⟨b, List.mem_append_left _ hb, he⟩
      · rintro ⟨b, hb, he⟩
        rcases List.mem_append.1 hb with h | h
        · exact ⟨b, h, he⟩
        · rw [List.mem_singleton.1 h] at he
          exact absurd (he ▸ hu) hu2
    · have hiff : a.url ∉ seen ↔ ∀ b ∈ prev, b.url ≠ a.url := by
        rw [hinv a.url hu]
        simp
      by_cases hseen : a.url ∈ seen
      · have hb2 : ¬ ∀ b ∈ prev, b.url ≠ a.url := by
          intro hall; exact (hiff.2 hall) hseen
        rw [deduplicate_go, dedupe_firstwins_go, if_neg (by simp [hseen]),
          if_neg (by simp [hb2])]
        apply ih
        intro u hu2
        rw [hinv u hu2]
        constructor
        · rintro ⟨b, hb, he⟩; exact ⟨b, List.mem_append_left _ hb, he⟩
        · rintro ⟨b, hb, he⟩
          rcases List.mem_append.1 hb with h | h
          · exact ⟨b, h, he⟩
          · rw [List.mem_singleton.1 h] at he
            exact he ▸ (hinv a.url hu).1 hseen
      · have hall : ∀ b ∈ prev, b.url ≠ a.url := hiff.1 hseen
        rw [deduplicate_go, dedupe_firstwins_go, if_pos ⟨hu, hseen⟩,
          if_pos ⟨hu, hall⟩]
        congr 1
        apply ih
        intro u hu2
        constructor
        · intro hm
          rcases List.mem_cons.1 hm with heq | hm2
          · exact ⟨a, List.mem_append_right _ (List.mem_singleton_self a), heq.symm⟩
          · rcases (hinv u hu2).1 hm2 with ⟨b, hb, he⟩
            exact ⟨b, List.mem_append_left _ hb, he⟩
        · rintro ⟨b, hb, he⟩
          rcases List.mem_append.1 hb with h | h
          · exact List.mem_cons_of_mem _ ((hinv u hu2).2 ⟨b, h, he⟩)
          · rw [List.mem_singleton.1 h] at he
            exact he ▸ List.mem_cons_self _ _

/-! ### Claim theorems -/

/-- C1 counterexample: an article with an empty `url` is not retained by
`deduplicate_articles` — on the one-element input holding only an
empty-url article, the output is empty, so the article does not appear
in the output as the claim states. -/
theorem empty_url_article_dropped_cex :
    empty_url_article ∈ [empty_url_article] ∧
    empty_url_article ∉ deduplicate_articles [empty_url_article] := by
  decide

/-- C1 (amended): for every input article list, `deduplicate_articles`
always removes every article whose url is empty: an empty-url article
never appears in the output. -/
theorem empty_url_never_in_dedup_output (l : List Article) (a : Article)
    (h : a.url = "") : a ∉ deduplicate_articles l := by
  intro hmem
  exact (mem_deduplicate_go hmem).1 h

/-- Witness for the amended C1 at a concrete input. -/
theorem empty_url_never_in_dedup_output_wit :
    empty_url_article ∉ deduplicate_articles [empty_url_article, d_art1] :=
  empty_url_never_in_dedup_output [empty_url_article, d_art1] empty_url_article rfl

/-- C2: for every clock, window and article list,
`filter_recent_articles` keeps exactly the articles satisfying the
spec's keep-predicate for the cutoff `now − windowHours`: empty
`published_date` kept, unparseable `published_date` (after the `Z`
normalization) kept, and a parsed timestamp (timezone-naive read as UTC)
kept iff it is at least the cutoff. -/
theorem filter_recent_keeps_exactly_spec (nowUtcMicros hours : Int)
    (l : List Article) :
    filter_recent_articles nowUtcMicros hours l =
      l.filter (keeps_article_spec (nowUtcMicros - hours * 3600000000)) :=
  filter_recent_go_eq_filter _ l

/-- C3: `deduplicate_articles` equals the spec's first-occurrence-wins
walk (for each non-empty url, the first occurrence is retained and every
later article with the same url dropped whatever its other fields), its
output is a sublist of the input (first-seen order preserved), and on
the concrete 5-article batch where articles 2 and 4 share a non-empty
url the output is the 4 articles with article 2 retained and article 4
dropped. -/
theorem dedup_first_occurrence_wins :
    (∀ l : List Article, deduplicate_articles l = dedupe_firstwins l) ∧
    (∀ l : List Article, List.Sublist (deduplicate_articles l) l) ∧
    deduplicate_articles [d_art1, d_art2, d_art3, d_art4, d_art5] =
      [d_art1, d_art2, d_art3, d_art5] := by
  refine ⟨?_, ?_, ?_⟩
  · intro l
    exact deduplicate_go_eq_firstwins l [] [] (by intro u hu; simp)
  · intro l
    exact deduplicate_go_sublist [] l
  · decide

/-- C4: each adapter is total (it returns a value for every fetch
outcome, never propagating a failure), its output is the concatenation
of independent per-unit contributions (so one unit's failure leaves the
other units' articles untouched), and a failing unit contributes zero
articles together with one error-channel line. -/
theorem adapters_unit_isolation
    (nytFetch : String → Except String NytResponse)
    (bbFetch gFetch : String → Except String Feed) :
    (fetch_nyt_articles nytFetch =
      ((NYT_SECTIONS.map (fun s => (nyt_unit nytFetch s).1)).flatten,
       (NYT_SECTIONS.map (fun s => (nyt_unit nytFetch s).2)).flatten)) ∧
    (fetch_bloomberg_articles bbFetch =
      ((BLOOMBERG_FEEDS.map (fun u => (bloomberg_unit bbFetch u).1)).flatten,
       (BLOOMBERG_FEEDS.map (fun u => (bloomberg_unit bbFetch u).2)).flatten)) ∧
    (fetch_guardian_articles gFetch =
      ((GUARDIAN_FEEDS.map (fun u => (guardian_unit gFetch u).1)).flatten,
       (GUARDIAN_FEEDS.map (fun u => (guardian_unit gFetch u).2)).flatten)) ∧
    (∀ sec e, nytFetch sec = Except.error e →
      nyt_unit nytFetch sec =
        ([], ["[ERROR] NYT " ++ sec ++ " の取得に失敗: " ++ e])) ∧
    (∀ u e, bbFetch u = Except.error e →
      bloomberg_unit bbFetch u =
        ([], ["[ERROR] Bloomberg " ++ u ++ " の取得に失敗: " ++ e])) ∧
    (∀ u e, gFetch u = Except.error e →
      guardian_unit gFetch u =
        ([], ["[ERROR] Guardian " ++ u ++ " の取得に失敗: " ++ e])) := by
  refine ⟨fetch_nyt_decomp nytFetch, fetch_bloomberg_decomp bbFetch,
    fetch_guardian_decomp gFetch, ?_, ?_, ?_⟩
  · intro sec e h
    simp [nyt_unit, h]
  · intro u e h
    simp [bloomberg_unit, h]
  · intro u e h
    simp [guardian_unit, h]

/-- Witness for C4 at a concrete failing fetch. -/
theorem adapters_unit_isolation_wit :
    nyt_unit (fun _ => Except.error "boom") "technology" =
      ([], ["[ERROR] NYT " ++ "technology" ++ " の取得に失敗: " ++ "boom"]) :=
  (adapters_unit_isolation (fun _ => Except.error "boom")
    (fun _ => Except.error "down") (fun _ => Except.error "down")).2.2.2.1
    "technology" "boom" rfl

/-- C5: every article the Guardian adapter variant builds stores as its
abstract the raw summary with HTML tags removed and then truncated to at
most 500 characters; in particular the raw summary
`<p>Hello <b>world</b></p>` yields the stored abstract `Hello world`. -/
theorem guardian_abstract_stripped_truncated :
    (∀ (sec : String) (e : FeedEntry),
      (guardian_entry_article sec e).abstract =
        String.mk ((stripHtml (e.summary.getD "")).data.take 500)) ∧
    (∀ (sec : String) (e : FeedEntry),
      (guardian_entry_article sec e).abstract.length ≤ 500) ∧
    stripHtml "<p>Hello <b>world</b></p>" = "Hello world" ∧
    (guardian_entry_article "technology"
      { title := some "T", summary := some "<p>Hello <b>world</b></p>",
        link := some "https://example.com/t", published := none,
        published_parsed := none }).abstract = "Hello world" := by
  have hunf : ∀ (sec : String) (e : FeedEntry),
      (guardian_entry_article sec e).abstract =
        (if 500 < (stripHtml (e.summary.getD "")).data.length then
          String.mk ((stripHtml (e.summary.getD "")).data.take 500)
         else stripHtml (e.summary.getD "")) := fun _ _ => rfl
  have habs : ∀ (sec : String) (e : FeedEntry),
      (guardian_entry_article sec e).abstract =
        String.mk ((stripHtml (e.summary.getD "")).data.take 500) := by
    intro sec e
    rw [hunf sec e]
    by_cases h : 500 < (stripHtml (e.summary.getD "")).data.length
    · rw [if_pos h]
    · rw [if_neg h, List.take_of_length_le (le_of_not_lt h)]
  refine ⟨habs, ?_, by decide, by decide⟩
  intro sec e
  rw [habs sec e]
  exact List.length_take_le 500 (stripHtml (e.summary.getD "")).data

/-- C6: the pipeline entry point runs the stages in fixed order — the
articles of the written document are the deduplication of the
time-filtered concatenation of the three adapters' outputs — writes a
`total_count` equal to the final list's length and the clock reading as
`fetched_at`, defaults the window to 48 hours, and writes
`total_count = 0` alongside an empty list when no article survives. -/
theorem pipeline_stage_order
    (nytFetch : String → Except String NytResponse)
    (bbFetch gFetch : String → Except String Feed)
    (nowUtcMicros : Int) (nowIso : String) (hours : Int) :
    (fetch_articles_main nytFetch bbFetch gFetch nowUtcMicros nowIso hours).articles =
      deduplicate_articles (filter_recent_articles nowUtcMicros hours
        ((fetch_nyt_articles nytFetch).1 ++ (fetch_bloomberg_articles bbFetch).1 ++
          (fetch_guardian_articles gFetch).1)) ∧
    (fetch_articles_main nytFetch bbFetch gFetch nowUtcMicros nowIso hours).total_count =
      (fetch_articles_main nytFetch bbFetch gFetch nowUtcMicros nowIso hours).articles.length ∧
    (fetch_articles_main nytFetch bbFetch gFetch nowUtcMicros nowIso hours).fetched_at =
      nowIso ∧
    DEFAULT_HOURS = 48 ∧
    ((fetch_articles_main nytFetch bbFetch gFetch nowUtcMicros nowIso hours).articles = [] →
      (fetch_articles_main nytFetch bbFetch gFetch nowUtcMicros nowIso hours).total_count = 0) := by
  refine ⟨rfl, rfl, rfl, rfl, ?_⟩
  intro h
  have h2 : (fetch_articles_main nytFetch bbFetch gFetch nowUtcMicros nowIso hours).total_count =
      (fetch_articles_main nytFetch bbFetch gFetch nowUtcMicros nowIso hours).articles.length := rfl
  rw [h2, h]
  rfl

/-- Witness for C6 at a concrete run in which every fetch fails. -/
theorem pipeline_stage_order_wit :
    (fetch_articles_main (fun _ => Except.error "down") (fun _ => Except.error "down")
      (fun _ => Except.error "down") 0 "2026-01-01T00:00:00+00:00" 48).total_count = 0 :=
  (pipeline_stage_order (fun _ => Except.error "down") (fun _ => Except.error "down")
    (fun _ => Except.error "down") 0 "2026-01-01T00:00:00+00:00" 48).2.2.2.2 (by decide)

/-- C7: `deduplicate_articles` is idempotent. -/
theorem deduplicate_idempotent (l : List Article) :
    deduplicate_articles (deduplicate_articles l) = deduplicate_articles l := by
  apply deduplicate_go_fixed
  · intro a ha
    exact ⟨(mem_deduplicate_go ha).1, by simp⟩
  · exact deduplicate_go_nodup_urls [] l

/-- C8: the time-window filter and the deduplicator never mutate an
article: each output is a sublist (subsequence) of the input, so every
output element is an input element — all six fields unchanged — and the
input order is preserved. -/
theorem stages_never_mutate_sublist (nowUtcMicros hours : Int) (l : List Article) :
    List.Sublist (filter_recent_articles nowUtcMicros hours l) l ∧
    List.Sublist (deduplicate_articles l) l :=
  ⟨filter_recent_go_sublist _ l, deduplicate_go_sublist [] l⟩

/-- C9 counterexample: the cap is not universal over posted messages —
with a truthy `--error` argument of 40000 characters, `main` posts via
`post_error_to_slack` a text strictly longer than the cap even after
allowing for an appended truncation notice, so the posted message's
length is not capped at 39000 as the claim states. -/
theorem slack_error_path_uncapped_cex :
    39000 + TRUNC_NOTICE.length <
      ((slack_main_payload (some big_error_message) "").text).length := by
  have hne : big_error_message ≠ "" := by decide
  have htext : (slack_main_payload (some big_error_message) "").text =
      post_error_to_slack_message big_error_message := by
    simp [slack_main_payload, post_to_slack_payload, hne]
  have hblen : big_error_message.length = 40000 := by
    show (List.replicate 40000 'a').length = 40000
    exact List.length_replicate 40000 'a'
  have hlen : (post_error_to_slack_message big_error_message).length =
      ":rotating_light: *記事キュレーションでエラーが発生しました*\n\n```\n".length +
        big_error_message.length + "\n```".length := by
    simp [post_error_to_slack_message, String.length_append]
  rw [htext, hlen, hblen]
  decide

/-- C9 (amended): on the normal path (no truthy `--error` argument) the
posted payload's text is the input message capped at
`MAX_LENGTH = 39000` characters with the truncation notice appended
exactly when the original exceeds the cap (and the capped body has at
most 39000 characters); the `--error` path instead posts the error
notification built by `post_error_to_slack` unmodified, with no cap. -/
theorem slack_payload_capped_outside_error_path (message err : String) :
    (slack_main_payload none message).text = slack_prepare_message message ∧
    slack_prepare_message message =
      (if 39000 < message.length then
        String.mk (message.data.take 39000) ++ TRUNC_NOTICE
       else message) ∧
    MAX_LENGTH = 39000 ∧
    (String.mk (message.data.take 39000)).length ≤ 39000 ∧
    (err ≠ "" →
      (slack_main_payload (some err) message).text =
        post_error_to_slack_message err) := by
  refine ⟨rfl, rfl, rfl, List.length_take_le 39000 message.data, ?_⟩
  intro h
  simp [slack_main_payload, post_to_slack_payload, h]

/-- Witness for the amended C9 at a concrete error argument. -/
theorem slack_payload_capped_outside_error_path_wit :
    (slack_main_payload (some "x") "m").text = post_error_to_slack_message "x" :=
  (slack_payload_capped_outside_error_path "m" "x").2.2.2.2 (by decide)

/-- C10: the output of `deduplicate_articles` holds only articles with a
non-empty url, those urls are pairwise distinct, and every input article
whose url is the empty string is absent from the output. -/
theorem dedup_output_urls_nonempty_distinct (l : List Article) :
    (∀ a ∈ deduplicate_articles l, a.url ≠ "") ∧
    ((deduplicate_articles l).map (fun a => a.url)).Nodup ∧
    (∀ a ∈ l, a.url = "" → a ∉ deduplicate_articles l) := by
  refine ⟨?_, deduplicate_go_nodup_urls [] l, ?_⟩
  · intro a ha
    exact (mem_deduplicate_go ha).1
  · intro a _ hu hmem
    exact (mem_deduplicate_go hmem).1 hu

/-- Witness for C10 at a concrete input. -/
theorem dedup_output_urls_nonempty_distinct_wit :
    d_art1.url ≠ "" :=
  (dedup_output_urls_nonempty_distinct [d_art1]).1 d_art1 (by decide)

end NewsCuration
